import Mathlib

/-!
# Verification of the SBFspot-port Speedwire protocol client

This file gives a shallow embedding, in Lean 4, of the protocol layer of the
SBFspot Python port (files `sbfspot_python/protocol.py`, `sbfspot_python/sbfspot.py`,
`sbfspot_python/constants.py`, `sbfspot_python/models.py`) and proves properties of
that embedding.

Modelling conventions:
* Python `bytes` / `bytearray` values are `List Nat` whose entries are byte values.
* Python unbounded integers are `Int` (or `Nat` where the source value is always
  non-negative); Python float arithmetic in the historical decoder is modelled by
  exact rationals (`Rat`); the concrete payloads evaluated below only involve exact
  float computations, so the model is faithful at those inputs.
* `struct.unpack_from`, and direct `bytes` indexing, raise on a too-short buffer;
  the corresponding readers return `Except Unit _`, where `Except.error ()` stands
  for the raised `struct.error` / `IndexError`.
* Stateful methods of `PacketBuilder` and `SBFspot` become explicit state-passing
  functions.
-/

namespace SBFspotPort

/-! ## Wire codec primitives (protocol.py) -/

/-- Little-endian byte decomposition of a natural number into `n` bytes
(the byte sequence produced by `struct.pack` for an in-range value). -/
def leBytes : Nat → Nat → List Nat
  | 0, _ => []
  | n + 1, x => x % 256 :: leBytes n (x / 256)

/-- Reassemble a little-endian byte list into a natural number. -/
def fromLE : List Nat → Nat
  | [] => 0
  | b :: bs => b + 256 * fromLE bs

/-- Total little-endian read of `n` bytes at `off` (out-of-range bytes read as 0).
Used to state what the fallible readers return when they succeed. -/
def decodeLE (data : List Nat) (off n : Nat) : Nat :=
  fromLE ((List.range n).map fun i => data.getD (off + i) 0)

/-- `struct.unpack_from('<H', buf, offset)`: 16-bit little-endian unsigned read;
raises (`Except.error`) when fewer than 2 bytes are available, like `get_short`. -/
def get_short (data : List Nat) (off : Nat) : Except Unit Nat :=
  if off + 2 ≤ data.length then .ok (decodeLE data off 2) else .error ()

/-- `struct.unpack_from('<I', buf, offset)`: 32-bit little-endian unsigned read
(`get_long` in protocol.py). -/
def get_long (data : List Nat) (off : Nat) : Except Unit Nat :=
  if off + 4 ≤ data.length then .ok (decodeLE data off 4) else .error ()

/-- `struct.unpack_from('<i', buf, offset)`: 32-bit little-endian signed read
(`get_long_signed` in protocol.py). -/
def get_long_signed (data : List Nat) (off : Nat) : Except Unit Int :=
  if off + 4 ≤ data.length then
    let u := decodeLE data off 4
    .ok (if 2 ^ 31 ≤ u then (u : Int) - 2 ^ 32 else (u : Int))
  else .error ()

/-- `struct.unpack_from('<Q', buf, offset)`: 64-bit little-endian unsigned read
(`get_longlong` in protocol.py). -/
def get_longlong (data : List Nat) (off : Nat) : Except Unit Nat :=
  if off + 8 ≤ data.length then .ok (decodeLE data off 8) else .error ()

/-- Python `data[i]` on a `bytes` object: raises `IndexError` when out of range. -/
def get_byte_at (data : List Nat) (i : Nat) : Except Unit Nat :=
  if i < data.length then .ok (data.getD i 0) else .error ()

/-! ## Constants (constants.py) -/

def SMA_SIGNATURE : List Nat := [0x53, 0x4D, 0x41, 0x00]

def ETH_L2SIGNATURE : Nat := 0x65601000

def APP_SUSYID : Nat := 125

def ANY_SUSYID : Nat := 0xFFFF

def ANY_SERIAL : Nat := 0xFFFFFFFF

def UG_USER : Nat := 0x07

def UG_INSTALLER : Nat := 0x0A

/-- NaN sentinel constants from constants.py (Python non-negative int literals). -/
def NAN_S32 : Int := 0x80000000

def NAN_U32 : Int := 0xFFFFFFFF

def NAN_S64 : Int := 0x8000000000000000

def NAN_U64 : Int := 0xFFFFFFFFFFFFFFFF

/-- The values of the `LriDef` enum in constants.py: the known measurement codes. -/
def lriValues : List Nat :=
  [0x00214800, 0x00237700, 0x00251E00, 0x00260100, 0x00262200, 0x00263F00,
   0x00295A00, 0x00411E00, 0x00411F00, 0x00412000, 0x00416400, 0x00416600,
   0x00451F00, 0x00452100, 0x00462300, 0x00462400, 0x00462500, 0x00462E00,
   0x00462F00, 0x00463600, 0x00463700, 0x00464000, 0x00464100, 0x00464200,
   0x00464800, 0x00464900, 0x00464A00, 0x00465000, 0x00465100, 0x00465200,
   0x00465300, 0x00465400, 0x00465500, 0x00465700, 0x00491E00, 0x00492600,
   0x00492700, 0x00495B00, 0x00495C00, 0x00495D00, 0x00821E00, 0x00821F00,
   0x00822000, 0x00823400]

/-- `is_nan(value, signed, bits)` from protocol.py: compares the (Python int)
value with the reserved sentinel constant for the width/signedness. -/
def is_nan (value : Int) (signed : Bool) (bits : Nat) : Bool :=
  if bits = 32 then
    (if signed then decide (value = NAN_S32) else decide (value = NAN_U32))
  else
    (if signed then decide (value = NAN_S64) else decide (value = NAN_U64))

/-! ## PacketBuilder (protocol.py) -/

/-- The mutable state of `PacketBuilder`: the byte buffer, the packet-id counter
and the per-session application serial. -/
structure PacketBuilder where
  buffer : List Nat
  packet_id : Nat
  app_serial : Nat
deriving Repr

/-- `PacketBuilder.reset`. -/
def PacketBuilder.reset (st : PacketBuilder) : PacketBuilder :=
  { st with buffer := [] }

/-- `write_byte(value)`: appends `value & 0xFF`.  The argument is an arbitrary
Python int, so it is an `Int` here; `v & 0xFF` on a Python int is `v mod 2^8`. -/
def write_byte (v : Int) (st : PacketBuilder) : PacketBuilder :=
  { st with buffer := st.buffer ++ [(v.emod 256).toNat] }

/-- `write_short(value)`: `struct.pack('<H', value & 0xFFFF)`. -/
def write_short (v : Int) (st : PacketBuilder) : PacketBuilder :=
  { st with buffer := st.buffer ++ leBytes 2 (v.emod (2 ^ 16)).toNat }

/-- `write_long(value)`: `struct.pack('<I', value & 0xFFFFFFFF)`. -/
def write_long (v : Int) (st : PacketBuilder) : PacketBuilder :=
  { st with buffer := st.buffer ++ leBytes 4 (v.emod (2 ^ 32)).toNat }

/-- `write_longlong(value)`: `struct.pack('<Q', value & 0xFFFFFFFFFFFFFFFF)`. -/
def write_longlong (v : Int) (st : PacketBuilder) : PacketBuilder :=
  { st with buffer := st.buffer ++ leBytes 8 (v.emod (2 ^ 64)).toNat }

/-- `write_array(data)`. -/
def write_array (bs : List Nat) (st : PacketBuilder) : PacketBuilder :=
  { st with buffer := st.buffer ++ bs }

/-- `next_packet_id`: increment and wrap from 0x7FFF back to 1. -/
def next_packet_id (st : PacketBuilder) : PacketBuilder :=
  let p := st.packet_id + 1
  { st with packet_id := if 0x7FFF < p then 1 else p }

/-- `build_eth_header`: reset, then L1 header with a zero length placeholder. -/
def build_eth_header (st : PacketBuilder) : PacketBuilder :=
  st.reset |> write_array SMA_SIGNATURE |> write_long 0xA0020400
    |> write_long 0xFFFFFFFF |> write_byte 0 |> write_byte 0

/-- `build_packet(longwords, ctrl, ctrl2, dst_susy_id, dst_serial)`: the L2
header, destination and source endpoints, error/fragment fields and the packet
id with its high bit set. -/
def build_packet (longwords ctrl ctrl2 dst_susy_id dst_serial : Int)
    (st : PacketBuilder) : PacketBuilder :=
  st |> write_long (ETH_L2SIGNATURE : Nat)
    |> write_byte longwords |> write_byte ctrl
    |> write_short dst_susy_id |> write_long dst_serial |> write_short ctrl2
    |> write_short (APP_SUSYID : Nat) |> write_long (st.app_serial : Int)
    |> write_short ctrl2
    |> write_short 0 |> write_short 0
    |> write_short ((st.packet_id ||| 0x8000 : Nat) : Int)

/-- `build_packet_trailer`: four zero bytes. -/
def build_packet_trailer (st : PacketBuilder) : PacketBuilder :=
  write_long 0 st

/-- `finalize_packet_length`: stores `len(buffer) - 14` big-endian at offsets
12 and 13 of the L1 header. -/
def finalize_packet_length (st : PacketBuilder) : PacketBuilder :=
  let dl := st.buffer.length - 14
  { st with buffer := (st.buffer.set 12 (dl / 256 % 256)).set 13 (dl % 256) }

/-- `build_discovery_packet`: fixed 20-byte multicast probe; note that it does
not call `next_packet_id`, does not build the L1 header and never calls
`finalize_packet_length`. -/
def build_discovery_packet (st : PacketBuilder) : PacketBuilder :=
  st.reset |> write_long 0x00414D53 |> write_long 0xA0020400
    |> write_long 0xFFFFFFFF |> write_long 0x20000000 |> write_long 0x00000000

/-- `build_init_packet(dst_susy_id, dst_serial)`. -/
def build_init_packet (dst_susy_id dst_serial : Int) (st : PacketBuilder) :
    PacketBuilder :=
  let st := next_packet_id st
  st |> build_eth_header |> build_packet 0x09 0xA0 0 dst_susy_id dst_serial
    |> write_long 0x00000200 |> write_long 0 |> write_long 0 |> write_long 0
    |> build_packet_trailer |> finalize_packet_length

/-- The per-privilege password offset byte: `0x88 if user_group == UG_USER else 0xBB`. -/
def encChar (user_group : Nat) : Nat :=
  if user_group = UG_USER then 0x88 else 0xBB

/-- The 12-byte encoded password field built by `build_login_packet`:
characters of `password[:12]` obfuscated by adding the offset mod 256, the
positions from `len(password)` up to 12 filled with the offset constant.
(The source fills a `bytearray(12)` with two index loops; this is the same
12-byte list.) -/
def encodePassword (password : List Nat) (user_group : Nat) : List Nat :=
  let e := encChar user_group
  (password.take 12).map (fun c => (c + e) % 256) ++
    List.replicate (12 - password.length) e

/-- `build_login_packet(dst_susy_id, dst_serial, password, user_group)`;
`now` stands for `int(time.time())`. -/
def build_login_packet (dst_susy_id dst_serial : Int) (password : List Nat)
    (user_group : Nat) (now : Int) (st : PacketBuilder) : PacketBuilder :=
  let st := next_packet_id st
  let pw := encodePassword password user_group
  st |> build_eth_header |> build_packet 0x0E 0xA0 0x0100 dst_susy_id dst_serial
    |> write_long 0xFFFD040C |> write_long (user_group : Int)
    |> write_long 0x00000384 |> write_long now |> write_long 0
    |> write_array pw |> build_packet_trailer |> finalize_packet_length

/-- `build_logoff_packet`: note that it does call `next_packet_id`. -/
def build_logoff_packet (st : PacketBuilder) : PacketBuilder :=
  let st := next_packet_id st
  st |> build_eth_header
    |> build_packet 0x08 0xA0 0x0300 (ANY_SUSYID : Nat) (ANY_SERIAL : Nat)
    |> write_long 0xFFFD010E |> write_long 0xFFFFFFFF
    |> build_packet_trailer |> finalize_packet_length

/-- `build_data_request_packet(dst_susy_id, dst_serial, command, first, last)`:
the protocol.py signature has exactly these five data parameters and no
`ctrl` parameter. -/
def build_data_request_packet (dst_susy_id dst_serial command first last : Int)
    (st : PacketBuilder) : PacketBuilder :=
  let st := next_packet_id st
  st |> build_eth_header |> build_packet 0x09 0xA0 0 dst_susy_id dst_serial
    |> write_long command |> write_long first |> write_long last
    |> build_packet_trailer |> finalize_packet_length

/-! ## Frame parser (protocol.py, `parse_packet_header`) -/

/-- `parse_packet_header(packet)`: reads the source endpoint, error code,
fragment id and packet id at fixed offsets; the packet id has its reserved
top bit masked off with `& 0x7FFF`. -/
def parse_packet_header (packet : List Nat) :
    Except Unit (Nat × Nat × Nat × Nat × Nat) := do
  let src_susy_id ← get_short packet 28
  let src_serial ← get_long packet 30
  let error_code ← get_short packet 36
  let fragment_id ← get_short packet 38
  let packet_id ← get_short packet 40
  pure (src_susy_id, src_serial, error_code, fragment_id, packet_id &&& 0x7FFF)

/-! ## Device state (models.py) and field mapper (sbfspot.py, `_map_lri_value`) -/

/-- `MPPTData` from models.py. -/
structure MPPTData where
  pdc : Int := 0
  udc : Int := 0
  idc : Int := 0
deriving Repr, DecidableEq

/-- `DayData` from models.py.  `datetime.fromtimestamp` is modelled by keeping
the raw epoch timestamp; the float `watt` field is modelled by an exact
rational. -/
structure DayData where
  ts : Nat
  total_wh : Nat
  watt : Rat
deriving Repr, DecidableEq

/-- `InverterData` from models.py (the fields touched by the decoders).
String-valued fields keep their raw decoded payload: `device_name` is the raw
byte list after stripping trailing zeros, `sw_version` the four unpacked
version components, `device_type`/`device_class` the raw status attribute that
the source formats into a string. -/
structure InverterData where
  total_pac : Int := 0
  pac1 : Int := 0
  pac2 : Int := 0
  pac3 : Int := 0
  uac1 : Int := 0
  uac2 : Int := 0
  uac3 : Int := 0
  iac1 : Int := 0
  iac2 : Int := 0
  iac3 : Int := 0
  grid_freq : Int := 0
  mpp : Nat → Option MPPTData := fun _ => none
  e_today : Int := 0
  e_total : Int := 0
  operation_time : Int := 0
  feed_in_time : Int := 0
  device_name : List Nat := []
  sw_version : Option (Nat × Nat × Nat × Nat) := none
  device_type : Option Nat := none
  device_class_id : Nat := 0
  device_class : Option Nat := none
  device_status : Nat := 0
  grid_relay_status : Nat := 0
  temperature : Int := 0
  bat_charge_status : Int := 0
  bat_voltage : Int := 0
  bat_current : Int := 0
  bat_temperature : Int := 0
  has_battery : Bool := false
  metering_grid_w_out : Int := 0
  metering_grid_w_in : Int := 0
  day_data : List DayData := []
  has_day_data : Bool := false
  inverter_datetime : Option Nat := none
  wakeup_time : Option Nat := none
  sleep_time : Option Nat := none

/-- A telemetry record as decoded by `_parse_records`: the raw 4-byte tag, the
sample timestamp, the decoded value and the byte position of the record (the
mapper re-reads parts of the raw record for string/status payloads). -/
structure RecordEntry where
  code : Nat
  timestamp : Nat
  value : Int
  pos : Nat
deriving Repr, DecidableEq

/-- `version_to_string(version)` from protocol.py, kept as the four unpacked
components (major, minor, build, raw revision byte; 0 means no revision
character). -/
def version_to_string (version : Nat) : Nat × Nat × Nat × Nat :=
  ((version >>> 24) &&& 0xFF, (version >>> 16) &&& 0xFF,
   (version >>> 8) &&& 0xFF, version &&& 0xFF)

/-- `bytes.rstrip(b'\x00')`: drop trailing zero bytes. -/
def rstripZeros (l : List Nat) : List Nat :=
  (l.reverse.dropWhile (fun b => b = 0)).reverse

/-- Update an MPP tracker slot: `if cls not in mpp: mpp[cls] = MPPTData()`
followed by a field assignment. -/
def updMpp (st : InverterData) (cls : Nat) (f : MPPTData → MPPTData) :
    InverterData :=
  let cur := (st.mpp cls).getD {}
  { st with mpp := fun c => if c = cls then some (f cur) else st.mpp c }

/-- `DataType.DT_STATUS`. -/
def DT_STATUS : Nat := 8

/-- `_map_lri_value` from sbfspot.py: routes one decoded record to its slot in
the device state.  `dt` models `datetime.fromtimestamp(timestamp) if
timestamp > 0 else None`.  The in-record reads (`get_long(data, pos + 8)`,
`get_long(data, pos + 24)`, the name slice) use the total reader `decodeLE`:
every call site guarantees `pos + record_size + 4 ≤ len data` with the record
size bounds checked by the branch, so the fallible reads always succeed. -/
def map_lri_value (data : List Nat) (record_size : Nat) (st : InverterData)
    (r : RecordEntry) : InverterData :=
  let lri := r.code &&& 0x00FFFF00
  let cls := r.code &&& 0xFF
  let data_type := (r.code >>> 24) &&& 0xFF
  let value := r.value
  let dt : Option Nat := if 0 < r.timestamp then some r.timestamp else none
  if lri = 0x00263F00 then { st with total_pac := value, sleep_time := dt }
  else if lri = 0x00464000 then { st with pac1 := value }
  else if lri = 0x00464100 then { st with pac2 := value }
  else if lri = 0x00464200 then { st with pac3 := value }
  else if lri = 0x00464800 then { st with uac1 := value }
  else if lri = 0x00464900 then { st with uac2 := value }
  else if lri = 0x00464A00 then { st with uac3 := value }
  else if lri = 0x00465000 ∨ lri = 0x00465300 then { st with iac1 := value }
  else if lri = 0x00465100 ∨ lri = 0x00465400 then { st with iac2 := value }
  else if lri = 0x00465200 ∨ lri = 0x00465500 then { st with iac3 := value }
  else if lri = 0x00465700 then { st with grid_freq := value }
  else if lri = 0x00251E00 then updMpp st cls (fun m => { m with pdc := value })
  else if lri = 0x00451F00 then updMpp st cls (fun m => { m with udc := value })
  else if lri = 0x00452100 then updMpp st cls (fun m => { m with idc := value })
  else if lri = 0x00260100 then
    { st with e_total := value, inverter_datetime := dt }
  else if lri = 0x00262200 then
    { st with e_today := value, inverter_datetime := dt }
  else if lri = 0x00462E00 then { st with operation_time := value }
  else if lri = 0x00462F00 then { st with feed_in_time := value }
  else if lri = 0x00821E00 then
    if 8 < record_size then
      { st with
        device_name := rstripZeros ((data.drop (r.pos + 8)).take (record_size - 8)),
        wakeup_time := dt }
    else st
  else if lri = 0x00823400 then
    if 28 ≤ record_size then
      { st with sw_version := some (version_to_string (decodeLE data (r.pos + 24) 4)) }
    else st
  else if lri = 0x00822000 then
    if data_type = DT_STATUS ∧ 12 ≤ record_size then
      { st with device_type := some (decodeLE data (r.pos + 8) 4) }
    else st
  else if lri = 0x00821F00 then
    if data_type = DT_STATUS ∧ 12 ≤ record_size then
      let attr := decodeLE data (r.pos + 8) 4
      { st with device_class_id := attr, device_class := some attr }
    else st
  else if lri = 0x00214800 then
    if data_type = DT_STATUS ∧ 12 ≤ record_size then
      { st with device_status := decodeLE data (r.pos + 8) 4 }
    else st
  else if lri = 0x00416400 then
    if data_type = DT_STATUS ∧ 12 ≤ record_size then
      { st with grid_relay_status := decodeLE data (r.pos + 8) 4 }
    else st
  else if lri = 0x00237700 then { st with temperature := value }
  else if lri = 0x00295A00 then
    { st with bat_charge_status := value, has_battery := true }
  else if lri = 0x00495C00 then { st with bat_voltage := value }
  else if lri = 0x00495D00 then { st with bat_current := value }
  else if lri = 0x00495B00 then { st with bat_temperature := value }
  else if lri = 0x00463600 then { st with metering_grid_w_out := value }
  else if lri = 0x00463700 then { st with metering_grid_w_in := value }
  else st

/-! ## Record decoder (sbfspot.py, `_parse_records` / `_parse_data_response`) -/

/-- The value decoding of `_parse_records` (lines 299-308): an 8-byte field is
read unsigned for stride 16; otherwise a signed 32-bit read at `pos + 16`
(stride at least 20) or `pos + 8`, then the sentinel checks
`is_nan(value, signed=True, bits=32) or is_nan(value, signed=False, bits=32)`. -/
def readRecordValue (data : List Nat) (pos record_size : Nat) :
    Except Unit Int :=
  if record_size = 16 then do
    let value64 ← get_longlong data (pos + 8)
    let value64 : Int := if is_nan (value64 : Int) false 64 then 0 else (value64 : Int)
    pure value64
  else do
    let value ← if 20 ≤ record_size then get_long_signed data (pos + 16)
                else get_long_signed data (pos + 8)
    pure (if is_nan value true 32 || is_nan value false 32 then 0 else value)

/-- The `while pos + record_size <= end` loop of `_parse_records`, as a
fuel-indexed recursion (the fuel only bounds the number of iterations; with
`record_size = 0` the Python loop would not terminate, and the model returns
an error once the fuel runs out — unreachable at the call sites, where the
stride is at least 12).  Returns the list of recognized records; a tag whose
masked code is not in the `LriDef` table is skipped by advancing one stride. -/
def parse_records_aux (data : List Nat) (record_size : Nat) :
    Nat → Nat → Except Unit (List RecordEntry)
  | fuel, pos =>
    if pos + record_size + 4 ≤ data.length then
      match fuel with
      | 0 => .error ()
      | fuel' + 1 => do
        let code ← get_long data pos
        let timestamp ← get_long data (pos + 4)
        if (code &&& 0x00FFFF00) ∈ lriValues then do
          let value ← readRecordValue data pos record_size
          let rest ← parse_records_aux data record_size fuel' (pos + record_size)
          pure (({ code := code, timestamp := timestamp, value := value,
                   pos := pos } : RecordEntry) :: rest)
        else
          parse_records_aux data record_size fuel' (pos + record_size)
    else
      pure []

/-- `_parse_records(data, start_offset, record_size)`: the record list decoded
from `start_offset` on, stopping before the 4-byte trailer. -/
def parse_records (data : List Nat) (start_offset record_size : Nat) :
    Except Unit (List RecordEntry) :=
  parse_records_aux data record_size (data.length + 1) start_offset

/-- Folding the decoded records into the device state (the source maps each
record as it is decoded; the decode loop does not depend on the state, so the
two are equivalent). -/
def applyRecords (data : List Nat) (record_size : Nat) (st : InverterData)
    (rs : List RecordEntry) : InverterData :=
  rs.foldl (map_lri_value data record_size) st

/-- The `for try_size in [record_size, 28, 16, 40, 12]` fallback loop of
`_parse_data_response`: try each candidate stride, keep the first structurally
successful decode, and fall through (leaving the state unchanged, with no
records) when every candidate fails. -/
def try_strides (data : List Nat) (st : InverterData) :
    List Nat → InverterData × List RecordEntry
  | [] => (st, [])
  | s :: rest =>
    match parse_records data 54 s with
    | .ok rs => (applyRecords data s st rs, rs)
    | .error _ => try_strides data st rest

/-- `_parse_data_response(data)`: header reads, candidate-stride computation
from the declared LRI range (`max 12 (payload_len / num_records)`, default 28)
and the ordered fallback list `[record_size, 28, 16, 40, 12]`.  The payload
region starts at offset 54 and ends 4 bytes before the end of the packet. -/
def parse_data_response (data : List Nat) (st : InverterData) :
    Except Unit (InverterData × List RecordEntry) := do
  let _longwords ← get_byte_at data 18
  let first_lri ← get_long data 46
  let last_lri ← get_long data 50
  let num_records := if first_lri < last_lri then last_lri - first_lri + 1 else 1
  let payload_len : Int := (data.length : Int) - 54 - 4
  let record_size :=
    if 0 < num_records ∧ 0 < payload_len then
      max 12 (payload_len.toNat / num_records)
    else 28
  pure (try_strides data st [record_size, 28, 16, 40, 12])

/-! ## Historical decoder (sbfspot.py, `_parse_archive_response`) -/

/-- The scan loop of `_parse_archive_response`: fixed 12-byte records
(timestamp:4, cumulative energy:8), skipping records with timestamp 0 or the
unsigned-64 energy sentinel; the derived power of a kept record is
`(total_wh - prev_total_wh) * 3600.0 / (ts - prev_ts)` when a previous kept
record exists (`prev_ts > 0 and ts > prev_ts`), else 0. -/
def parse_archive_aux (data : List Nat) :
    Nat → Nat → Nat → Nat → Except Unit (List DayData)
  | fuel, pos, prev_total_wh, prev_ts =>
    if pos + 12 + 4 ≤ data.length then
      match fuel with
      | 0 => .error ()
      | fuel' + 1 => do
        let ts ← get_long data pos
        let total_wh ← get_longlong data (pos + 4)
        if 0 < ts ∧ ¬ is_nan (total_wh : Int) false 64 then
          let watt : Rat :=
            if 0 < prev_ts ∧ prev_ts < ts then
              ((total_wh : Rat) - (prev_total_wh : Rat)) * 3600 /
                ((ts : Rat) - (prev_ts : Rat))
            else 0
          let rest ← parse_archive_aux data fuel' (pos + 12) total_wh ts
          pure (({ ts := ts, total_wh := total_wh, watt := watt } : DayData) :: rest)
        else
          parse_archive_aux data fuel' (pos + 12) prev_total_wh prev_ts
    else
      pure []

/-- `_parse_archive_response(data)`: the day-data list decoded from the
archive payload (offset 54 up to the 4-byte trailer), with
`prev_total_wh = prev_ts = 0` initially. -/
def parse_archive_response (data : List Nat) : Except Unit (List DayData) :=
  parse_archive_aux data (data.length + 1) 54 0 0

/-! ## Login error mapping (sbfspot.py, `login`) -/

/-- The exception classes of sbfspot.py that the session layer raises. -/
inductive LoginMessage where
  | invalidPassword
  | loginFailedWithCode (code : Nat)
deriving Repr, DecidableEq

/-- The exception classes defined in sbfspot.py: `ConnectionError` and
`AuthenticationError` (both subclasses of `SBFspotError`; no other exception
class exists in the module). -/
inductive SBFspotException where
  | connectionError
  | authenticationError (msg : LoginMessage)
deriving Repr, DecidableEq

/-- Whether an exception is an instance of `AuthenticationError`. -/
def isAuthenticationError : SBFspotException → Bool
  | .authenticationError _ => true
  | _ => false

/-- The error-code mapping of `login` (sbfspot.py lines 180-188) applied to
the error code parsed from the login reply: `0x0100` raises
`AuthenticationError("Invalid password")`, any other non-zero code raises
`AuthenticationError` carrying the code in its message, code 0 sets
`_logged_in = True` (the `Authenticated` state) and returns `True`. -/
def login_handle_reply (error_code : Nat) : Except SBFspotException Bool :=
  if error_code = 0x0100 then
    .error (.authenticationError .invalidPassword)
  else if error_code ≠ 0 then
    .error (.authenticationError (.loginFailedWithCode error_code))
  else
    .ok true

/-! ## The data-request call boundary (sbfspot.py `_request_data` vs
protocol.py `build_data_request_packet`) -/

/-- The parameter names of `PacketBuilder.build_data_request_packet` in
protocol.py. -/
def buildDataRequestParamNames : List String :=
  ["self", "dst_susy_id", "dst_serial", "command", "first", "last"]

/-- The keyword-argument names that `SBFspot._request_data` passes to
`build_data_request_packet` (sbfspot.py line 231). -/
def requestDataCallKeywords : List String := ["ctrl"]

/-! ## Small helpers and concrete test payloads -/

/-- Extract the success value of an `Except`, with a default. -/
def okD {α : Type} (e : Except Unit α) (dflt : α) : α :=
  match e with
  | .ok a => a
  | .error _ => dflt

/-- Whether an `Except` is a success. -/
def isOkE {ε α : Type} : Except ε α → Bool
  | .ok _ => true
  | .error _ => false

/-- The frame invariant claimed by the spec: the big-endian 16-bit length field
at offsets 12-13 of the outer header equals the total frame length minus 14. -/
def lengthFieldInv (st : PacketBuilder) : Prop :=
  st.buffer.getD 12 0 * 256 + st.buffer.getD 13 0 = st.buffer.length - 14

/-- A concrete 86-byte data response: a 54-byte header region declaring the
LRI range `first = last = 0` (so the computed candidate stride is
`max 12 (28 / 1) = 28`), one 28-byte record with tag `0x40263F01`
(measurement code `GridMsTotW`, class 1, type `DT_SLONG`), timestamp 1000 and
value bytes `00 00 00 80` (the signed-32 sentinel bit pattern `0x80000000`) at
record offset 16, then the 4-byte trailer. -/
def c1Data : List Nat :=
  List.replicate 54 0 ++ [0x01, 0x3F, 0x26, 0x40, 0xE8, 0x03, 0, 0] ++
    List.replicate 8 0 ++ [0, 0, 0, 0x80] ++ List.replicate 12 0

/-- A concrete 82-byte archive response holding exactly the two 12-byte
records of the claim: (timestamp 0, energy 1000 Wh) then (timestamp 3600,
energy 1500 Wh), followed by the 4-byte trailer. -/
def c4Data : List Nat :=
  List.replicate 54 0 ++
    [0, 0, 0, 0, 0xE8, 0x03, 0, 0, 0, 0, 0, 0] ++
    [0x10, 0x0E, 0, 0, 0xDC, 0x05, 0, 0, 0, 0, 0, 0] ++
    List.replicate 4 0

/-- Like `c4Data` but with both timestamps shifted by one hour, so that the
first record is not discarded by the timestamp-zero filter:
(timestamp 3600, energy 1000 Wh) then (timestamp 7200, energy 1500 Wh). -/
def c4AmendedData : List Nat :=
  List.replicate 54 0 ++
    [0x10, 0x0E, 0, 0, 0xE8, 0x03, 0, 0, 0, 0, 0, 0] ++
    [0x20, 0x1C, 0, 0, 0xDC, 0x05, 0, 0, 0, 0, 0, 0] ++
    List.replicate 4 0

/-! ## Helper lemmas -/

theorem leBytes_length (n x : Nat) : (leBytes n x).length = n := by
  induction n generalizing x with
  | zero => rfl
  | succ n ih => simp [leBytes, ih]

theorem leBytes_lt_256 (n x : Nat) : ∀ b ∈ leBytes n x, b < 256 := by
  induction n generalizing x with
  | zero => simp [leBytes]
  | succ n ih =>
    intro b hb
    simp only [leBytes, List.mem_cons] at hb
    rcases hb with h | h
    · omega
    · exact ih _ b h

theorem fromLE_leBytes (n x : Nat) : fromLE (leBytes n x) = x % 256 ^ n := by
  induction n generalizing x with
  | zero => simp [leBytes, fromLE, Nat.mod_one]
  | succ n ih =>
    have h256 : (256 : Nat) ^ (n + 1) = 256 * 256 ^ n := by ring
    simp only [leBytes, fromLE, ih]
    rw [h256, Nat.mod_mul]

deriving instance DecidableEq for Except

@[simp] theorem reset_buffer (st : PacketBuilder) :
    (PacketBuilder.reset st).buffer = [] := rfl

@[simp] theorem write_byte_buffer_length (v : Int) (st : PacketBuilder) :
    (write_byte v st).buffer.length = st.buffer.length + 1 := by
  simp [write_byte]

@[simp] theorem write_short_buffer_length (v : Int) (st : PacketBuilder) :
    (write_short v st).buffer.length = st.buffer.length + 2 := by
  simp [write_short, leBytes_length]

@[simp] theorem write_long_buffer_length (v : Int) (st : PacketBuilder) :
    (write_long v st).buffer.length = st.buffer.length + 4 := by
  simp [write_long, leBytes_length]

@[simp] theorem write_longlong_buffer_length (v : Int) (st : PacketBuilder) :
    (write_longlong v st).buffer.length = st.buffer.length + 8 := by
  simp [write_longlong, leBytes_length]

@[simp] theorem write_array_buffer_length (bs : List Nat) (st : PacketBuilder) :
    (write_array bs st).buffer.length = st.buffer.length + bs.length := by
  simp [write_array]

@[simp] theorem next_packet_id_buffer (st : PacketBuilder) :
    (next_packet_id st).buffer = st.buffer := rfl

@[simp] theorem build_eth_header_buffer_length (st : PacketBuilder) :
    (build_eth_header st).buffer.length = 14 := by
  simp [build_eth_header, SMA_SIGNATURE]

@[simp] theorem build_packet_buffer_length (a b c d e : Int) (st : PacketBuilder) :
    (build_packet a b c d e st).buffer.length = st.buffer.length + 28 := by
  simp [build_packet]

@[simp] theorem build_packet_trailer_buffer_length (st : PacketBuilder) :
    (build_packet_trailer st).buffer.length = st.buffer.length + 4 := by
  simp [build_packet_trailer]

@[simp] theorem encodePassword_length (password : List Nat) (user_group : Nat) :
    (encodePassword password user_group).length = 12 := by
  simp [encodePassword]
  omega

@[simp] theorem write_byte_packet_id (v : Int) (st : PacketBuilder) :
    (write_byte v st).packet_id = st.packet_id := rfl

@[simp] theorem write_short_packet_id (v : Int) (st : PacketBuilder) :
    (write_short v st).packet_id = st.packet_id := rfl

@[simp] theorem write_long_packet_id (v : Int) (st : PacketBuilder) :
    (write_long v st).packet_id = st.packet_id := rfl

@[simp] theorem write_longlong_packet_id (v : Int) (st : PacketBuilder) :
    (write_longlong v st).packet_id = st.packet_id := rfl

@[simp] theorem write_array_packet_id (bs : List Nat) (st : PacketBuilder) :
    (write_array bs st).packet_id = st.packet_id := rfl

@[simp] theorem reset_packet_id (st : PacketBuilder) :
    (PacketBuilder.reset st).packet_id = st.packet_id := rfl

@[simp] theorem build_eth_header_packet_id (st : PacketBuilder) :
    (build_eth_header st).packet_id = st.packet_id := rfl

@[simp] theorem build_packet_packet_id (a b c d e : Int) (st : PacketBuilder) :
    (build_packet a b c d e st).packet_id = st.packet_id := rfl

@[simp] theorem build_packet_trailer_packet_id (st : PacketBuilder) :
    (build_packet_trailer st).packet_id = st.packet_id := rfl

@[simp] theorem finalize_packet_id (st : PacketBuilder) :
    (finalize_packet_length st).packet_id = st.packet_id := rfl

/-- `finalize_packet_length` establishes the length-field invariant whenever
the buffer already holds the 14-byte L1 header and the data length fits in
16 bits. -/
theorem finalize_invariant (st : PacketBuilder)
    (h14 : 14 ≤ st.buffer.length) (hlt : st.buffer.length < 14 + 65536) :
    lengthFieldInv (finalize_packet_length st) := by
  unfold lengthFieldInv finalize_packet_length
  have h12 : 12 < st.buffer.length := by omega
  have h13 : 13 < st.buffer.length := by omega
  simp only [List.getD_eq_getElem?_getD, List.getElem?_set, List.length_set,
    h12, h13, if_true]
  norm_num
  omega

/-! ## Claim theorems -/

/-- Claim C7, counterexample: the discovery frame is a fixed 20-byte probe
with no outer header and no length field; its bytes at offsets 12-13 read
big-endian give 0, while its total length minus 14 is 6, so the claimed
invariant fails for the discovery frame kind. -/
theorem c7_counterexample :
    (build_discovery_packet ⟨[], 1, 900000000⟩).buffer.getD 12 0 * 256 +
        (build_discovery_packet ⟨[], 1, 900000000⟩).buffer.getD 13 0 ≠
      (build_discovery_packet ⟨[], 1, 900000000⟩).buffer.length - 14 := by
  decide

/-- Claim C7 (amended): for every built frame of the kinds that carry the
14-byte outer header — init, login, logoff and data_request — the two-byte
big-endian length field at offsets 12-13 equals the total frame length minus
14.  Discovery frames are excluded: they are fixed 20-byte probes without the
outer header or length field. -/
theorem c7_length_field_invariant (st : PacketBuilder)
    (dst_susy dst_serial now command first last : Int)
    (password : List Nat) (user_group : Nat) :
    lengthFieldInv (build_init_packet dst_susy dst_serial st)
    ∧ lengthFieldInv (build_login_packet dst_susy dst_serial password user_group now st)
    ∧ lengthFieldInv (build_logoff_packet st)
    ∧ lengthFieldInv (build_data_request_packet dst_susy dst_serial command first last st) := by
  refine ⟨?_, ?_, ?_, ?_⟩ <;>
    simp only [build_init_packet, build_login_packet, build_logoff_packet,
      build_data_request_packet] <;>
    (apply finalize_invariant <;> simp)

/-- Claim C9, counterexample: building a logoff frame does advance the
packet-index counter (`build_logoff_packet` calls `next_packet_id` first):
from a builder with counter 1 it leaves the counter at 2. -/
theorem c9_counterexample :
    (build_logoff_packet ⟨[], 1, 900000000⟩).packet_id = 2 ∧
      (⟨[], 1, 900000000⟩ : PacketBuilder).packet_id = 1 ∧ (2 : Nat) ≠ 1 := by
  decide

/-- Claim C9 (amended): building a discovery frame leaves the packet-index
counter unchanged, while init, login, logoff and data_request all advance it
(increment, wrapping from 0x7FFF back to 1). -/
theorem c9_packet_counter (st : PacketBuilder)
    (dst_susy dst_serial now command first last : Int)
    (password : List Nat) (user_group : Nat) :
    (build_discovery_packet st).packet_id = st.packet_id
    ∧ (build_init_packet dst_susy dst_serial st).packet_id =
        (next_packet_id st).packet_id
    ∧ (build_login_packet dst_susy dst_serial password user_group now st).packet_id =
        (next_packet_id st).packet_id
    ∧ (build_logoff_packet st).packet_id = (next_packet_id st).packet_id
    ∧ (build_data_request_packet dst_susy dst_serial command first last st).packet_id =
        (next_packet_id st).packet_id
    ∧ (next_packet_id st).packet_id =
        (if 0x7FFF < st.packet_id + 1 then 1 else st.packet_id + 1) := by
  refine ⟨rfl, ?_, ?_, ?_, ?_, rfl⟩ <;>
    simp [build_init_packet, build_login_packet, build_logoff_packet,
      build_data_request_packet, finalize_packet_length]

/-- Claim C10: each wire-codec write primitive is total in its integer
argument: for every `Int` value (negative or oversized included) it appends
exactly the little-endian bytes of the value reduced modulo 2^8, 2^16, 2^32
or 2^64 respectively — each appended byte is below 256 and the little-endian
reassembly of the appended bytes equals the value modulo the width. -/
theorem c10_write_primitives (st : PacketBuilder) (v : Int) :
    (∃ bs, (write_byte v st).buffer = st.buffer ++ bs ∧ bs.length = 1 ∧
      (∀ b ∈ bs, b < 256) ∧ (fromLE bs : Int) = v.emod (2 ^ 8))
    ∧ (∃ bs, (write_short v st).buffer = st.buffer ++ bs ∧ bs.length = 2 ∧
      (∀ b ∈ bs, b < 256) ∧ (fromLE bs : Int) = v.emod (2 ^ 16))
    ∧ (∃ bs, (write_long v st).buffer = st.buffer ++ bs ∧ bs.length = 4 ∧
      (∀ b ∈ bs, b < 256) ∧ (fromLE bs : Int) = v.emod (2 ^ 32))
    ∧ (∃ bs, (write_longlong v st).buffer = st.buffer ++ bs ∧ bs.length = 8 ∧
      (∀ b ∈ bs, b < 256) ∧ (fromLE bs : Int) = v.emod (2 ^ 64)) := by
  have key : ∀ n : Nat,
      (fromLE (leBytes n (v.emod ((256 : Int) ^ n)).toNat) : Int) =
        v.emod ((256 : Int) ^ n) := by
    intro n
    have h0 : (0 : Int) < 256 ^ n := by positivity
    have h1 : 0 ≤ v.emod (256 ^ n) := Int.emod_nonneg v (by positivity)
    have h2 : v.emod (256 ^ n) < 256 ^ n := Int.emod_lt_of_pos v h0
    have h3 : (v.emod ((256 : Int) ^ n)).toNat < 256 ^ n := by
      have : ((v.emod ((256 : Int) ^ n)).toNat : Int) < ((256 ^ n : Nat) : Int) := by
        rw [Int.toNat_of_nonneg h1]
        push_cast
        exact h2
      exact_mod_cast this
    rw [fromLE_leBytes, Nat.mod_eq_of_lt h3, Int.toNat_of_nonneg h1]
  have hb256 : 0 ≤ v.emod 256 ∧ v.emod 256 < 256 :=
    ⟨Int.emod_nonneg v (by norm_num), Int.emod_lt_of_pos v (by norm_num)⟩
  refine ⟨⟨[(v.emod 256).toNat], rfl, rfl, ?_, ?_⟩,
      ⟨leBytes 2 (v.emod (2 ^ 16)).toNat, rfl, leBytes_length _ _,
        leBytes_lt_256 _ _, ?_⟩,
      ⟨leBytes 4 (v.emod (2 ^ 32)).toNat, rfl, leBytes_length _ _,
        leBytes_lt_256 _ _, ?_⟩,
      ⟨leBytes 8 (v.emod (2 ^ 64)).toNat, rfl, leBytes_length _ _,
        leBytes_lt_256 _ _, ?_⟩⟩
  · intro b hb
    simp only [List.mem_singleton] at hb
    subst hb
    omega
  · simp only [fromLE]
    push_cast
    omega
  · rw [show ((2 : Int) ^ 16) = 256 ^ 2 by norm_num]
    exact key 2
  · rw [show ((2 : Int) ^ 32) = 256 ^ 4 by norm_num]
    exact key 4
  · rw [show ((2 : Int) ^ 64) = 256 ^ 8 by norm_num]
    exact key 8

/-- Pointwise-identity maps are the identity. -/
theorem map_eq_self_of (l : List Nat) (f : Nat → Nat) (h : ∀ c ∈ l, f c = c) :
    l.map f = l := by
  induction l with
  | nil => rfl
  | cons a l ih =>
    simp only [List.map_cons]
    rw [h a (by simp), ih fun c hc => h c (by simp [hc])]

/-- Claim C8: the login-payload password encoding round-trips: for any
password of ASCII character codes, if it has at most 12 characters then
subtracting the same per-privilege offset modulo 256 from each byte of the
encoded 12-byte field recovers the password characters followed by zero
padding; and the encoding of any password equals the encoding of its first
12 characters (silent truncation). -/
theorem c8_password_roundtrip (password : List Nat) (user_group : Nat)
    (hascii : ∀ c ∈ password, c < 128) :
    (password.length ≤ 12 →
      (encodePassword password user_group).map
          (fun (b : Nat) => ((((b : Int) - (encChar user_group : Int)) % 256).toNat))
        = password ++ List.replicate (12 - password.length) 0)
    ∧ encodePassword password user_group =
        encodePassword (password.take 12) user_group := by
  have he : encChar user_group < 256 := by
    unfold encChar
    split <;> norm_num
  constructor
  · intro hlen
    unfold encodePassword
    rw [List.take_of_length_le hlen, List.map_append, List.map_map,
      List.map_replicate]
    congr 1
    · apply map_eq_self_of
      intro c hc
      have hc' := hascii c hc
      simp only [Function.comp]
      push_cast
      omega
    · congr 1
      omega
  · unfold encodePassword
    have hc : 12 - password.length = 12 - 12 ⊓ password.length := by omega
    simp only [List.take_take, List.length_take, ← hc]
    norm_num

/-- Claim C8 witness: the two-character password "hi" (codes 104, 105)
encodes and decodes back to itself followed by ten zero-padding bytes. -/
theorem c8_witness :
    (encodePassword [104, 105] 7).map
        (fun (b : Nat) => ((((b : Int) - (encChar 7 : Int)) % 256).toNat))
      = [104, 105] ++ List.replicate 10 0 :=
  (c8_password_roundtrip [104, 105] 7 (by decide)).1 (by decide)

/-- Claim C5: the keyword argument `ctrl` that `SBFspot._request_data`
passes at its call of `build_data_request_packet` is not among the parameter
names of `build_data_request_packet` in protocol.py, so every data request
raises `TypeError` (unexpected keyword argument) and `read_all` aborts on its
first sub-query instead of continuing. -/
theorem c5_ctrl_keyword_not_in_signature :
    "ctrl" ∈ requestDataCallKeywords ∧ "ctrl" ∉ buildDataRequestParamNames := by
  decide

/-- Claim C3, counterexample: a login reply with the non-zero error code
0x0200 (neither 0 nor 0x0100) raises `AuthenticationError` (carrying the code
in its message), not a distinct device-rejected error: sbfspot.py defines no
such exception class, refuting "not an authentication error". -/
theorem c3_counterexample :
    login_handle_reply 0x0200
        = .error (.authenticationError (.loginFailedWithCode 0x0200))
    ∧ isAuthenticationError
        (.authenticationError (.loginFailedWithCode 0x0200)) = true := by
  decide

/-- Claim C3 (amended): the login reply mapping is: error code 0x0100 raises
`AuthenticationError` with the invalid-password message; error code 0
authenticates (returns `True` after setting the logged-in flag); any other
non-zero code raises `AuthenticationError` — the same exception class, not a
distinct device-rejected error — with the raw code carried in its message. -/
theorem c3_login_error_mapping (error_code : Nat) :
    login_handle_reply 0x0100 = .error (.authenticationError .invalidPassword)
    ∧ login_handle_reply 0 = .ok true
    ∧ (error_code ≠ 0x0100 → error_code ≠ 0 →
        login_handle_reply error_code
          = .error (.authenticationError (.loginFailedWithCode error_code))) := by
  refine ⟨by decide, by decide, fun h1 h2 => ?_⟩
  unfold login_handle_reply
  rw [if_neg h1, if_pos h2]

/-- Claim C3 witness: the amended mapping at the concrete non-zero code 7. -/
theorem c3_witness :
    login_handle_reply 7 = .error (.authenticationError (.loginFailedWithCode 7)) :=
  (c3_login_error_mapping 7).2.2 (by decide) (by decide)

/-- Claim C1: evaluation of the record decoder at `c1Data`, whose single
record carries the signed-32 sentinel bit pattern `0x80000000` in its value
field.  `get_long_signed` decodes those bytes to -2147483648, but `is_nan`
compares that signed value with the non-negative constants `NAN_S32 =
2147483648` and `NAN_U32 = 4294967295`, so both sentinel checks are false and
the sentinel propagates into the device state as `total_pac = -2147483648`
instead of being normalized to 0. -/
theorem c1_sentinel_propagated :
    (okD (parse_data_response c1Data {}) ({}, [])).1.total_pac = -2147483648
    ∧ ((-2147483648 : Int) ≠ 0) := by
  decide

/-- Claim C4, counterexample: on the archive payload with records
(timestamp 0, 1000 Wh) then (timestamp 3600, 1500 Wh), the decoder skips the
first record entirely (`if ts > 0` fails) and emits exactly one sample whose
derived power is 0 — not 500 W for the second sample and 0 for the first. -/
theorem c4_counterexample :
    (okD (parse_archive_response c4Data) []).map
        (fun d => (d.ts, d.total_wh, d.watt))
      = [(3600, 1500, (0 : Rat))]
    ∧ ((okD (parse_archive_response c4Data) []).map DayData.watt ≠ [0, 500]) := by
  decide

/-- Claim C4 (amended): records with timestamp 0 are skipped, so the claimed
example must use a non-zero first timestamp: on the archive payload with
records (timestamp 3600, 1000 Wh) then (timestamp 7200, 1500 Wh), the decoder
derives (e1 - e0) * 3600 / (ts1 - ts0) = 500 W for the second sample and 0
for the first. -/
theorem c4_power_derivation :
    ∃ d1 d2, okD (parse_archive_response c4AmendedData) [] = [d1, d2]
      ∧ d1.ts = 3600 ∧ d1.total_wh = 1000 ∧ d1.watt = 0
      ∧ d2.ts = 7200 ∧ d2.total_wh = 1500 ∧ d2.watt = 500 := by
  refine ⟨_, _, rfl, rfl, rfl, rfl, rfl, rfl, ?_⟩
  rw [if_pos (show 0 < decodeLE c4AmendedData 54 4 ∧
      decodeLE c4AmendedData 54 4 < decodeLE c4AmendedData 66 4 by decide)]
  norm_num [show decodeLE c4AmendedData 70 8 = 1500 from rfl,
    show decodeLE c4AmendedData 58 8 = 1000 from rfl,
    show decodeLE c4AmendedData 66 4 = 7200 from rfl,
    show decodeLE c4AmendedData 54 4 = 3600 from rfl]

theorem decodeLE_two (data : List Nat) (off : Nat) :
    decodeLE data off 2 = data.getD off 0 + 256 * data.getD (off + 1) 0 := by
  simp [decodeLE, fromLE, List.range_succ]

theorem decodeLE_four (data : List Nat) (off : Nat) :
    decodeLE data off 4 = data.getD off 0 + 256 * (data.getD (off + 1) 0 +
      256 * (data.getD (off + 2) 0 + 256 * data.getD (off + 3) 0)) := by
  simp [decodeLE, fromLE, List.range_succ]

/-- Claim C6, counterexample: a 43-byte input is shorter than the claimed
44-byte minimum header region, yet `parse_packet_header` succeeds on it (the
last read only needs bytes 40-41). -/
theorem c6_counterexample :
    (List.replicate 43 7).length < 44
    ∧ parse_packet_header (List.replicate 43 7)
        = .ok (1799, 117901063, 1799, 1799, 1799) := by
  decide

/-- Claim C6 (amended): `parse_packet_header` fails (the underlying
`struct.unpack_from` raises) exactly on inputs shorter than 42 bytes — not
44 — and on any input of at least 42 bytes it returns the source device-class
id (bytes 28-29), source serial (bytes 30-33), error code (bytes 36-37),
fragment index (bytes 38-39) and the packet index (bytes 40-41) with the
reserved top bit masked off (reduction modulo 2^15). -/
theorem c6_header_parse (packet : List Nat) :
    (packet.length < 42 → parse_packet_header packet = .error ())
    ∧ (42 ≤ packet.length → parse_packet_header packet =
        .ok (packet.getD 28 0 + 256 * packet.getD 29 0,
             packet.getD 30 0 + 256 * (packet.getD 31 0 +
               256 * (packet.getD 32 0 + 256 * packet.getD 33 0)),
             packet.getD 36 0 + 256 * packet.getD 37 0,
             packet.getD 38 0 + 256 * packet.getD 39 0,
             (packet.getD 40 0 + 256 * packet.getD 41 0) % 2 ^ 15)) := by
  constructor
  · intro h
    simp only [parse_packet_header, get_short, get_long, bind, Except.bind]
    split_ifs <;> simp_all
    omega
  · intro h
    simp only [parse_packet_header, get_short, get_long, bind, Except.bind]
    rw [if_pos (by omega : 28 + 2 ≤ packet.length),
      if_pos (by omega : 30 + 4 ≤ packet.length),
      if_pos (by omega : 36 + 2 ≤ packet.length),
      if_pos (by omega : 38 + 2 ≤ packet.length),
      if_pos (by omega : 40 + 2 ≤ packet.length)]
    simp only [pure, Except.pure, Except.ok.injEq]
    rw [decodeLE_two, decodeLE_two, decodeLE_two, decodeLE_two, decodeLE_four]
    rw [show (0x7FFF : Nat) = 2 ^ 15 - 1 by norm_num,
      Nat.and_pow_two_sub_one_eq_mod]

/-- Claim C6 witness: the amended parse applied to a 44-byte all-ones input:
it succeeds and every field is assembled from the stated byte offsets. -/
theorem c6_witness :
    parse_packet_header (List.replicate 44 1)
      = .ok (257, 16843009, 257, 257, 257) := by
  have h := (c6_header_parse (List.replicate 44 1)).2 (by decide)
  rw [h]
  rfl

/-- The value read of a record never fails structurally: for every stride of
at least 12 the bytes it reads lie inside the loop guard's bound. -/
theorem readRecordValue_isOk (data : List Nat) (pos stride : Nat)
    (h12 : 12 ≤ stride) (hg : pos + stride + 4 ≤ data.length) :
    ∃ v, readRecordValue data pos stride = .ok v := by
  unfold readRecordValue
  by_cases h16 : stride = 16
  · rw [if_pos h16]
    simp only [get_longlong, bind, Except.bind]
    rw [if_pos (by omega : pos + 8 + 8 ≤ data.length)]
    exact ⟨_, rfl⟩
  · rw [if_neg h16]
    by_cases h20 : 20 ≤ stride
    · simp only [get_long_signed, bind, Except.bind]
      rw [if_pos h20, if_pos (by omega : pos + 16 + 4 ≤ data.length)]
      exact ⟨_, rfl⟩
    · simp only [get_long_signed, bind, Except.bind]
      rw [if_neg h20, if_pos (by omega : pos + 8 + 4 ≤ data.length)]
      exact ⟨_, rfl⟩

/-- A decode attempt at any stride of at least 12 never fails structurally:
the loop guard `pos + record_size <= end` keeps every read in bounds (so the
except-branch of the fallback loop is actually unreachable on Ethernet
payloads). -/
theorem parse_records_aux_isOk (data : List Nat) (stride : Nat)
    (h12 : 12 ≤ stride) :
    ∀ fuel pos, data.length + 1 ≤ fuel + pos →
      ∃ rs, parse_records_aux data stride fuel pos = .ok rs := by
  intro fuel
  induction fuel with
  | zero =>
    intro pos hinv
    rw [parse_records_aux, if_neg (by omega : ¬ pos + stride + 4 ≤ data.length)]
    exact ⟨[], rfl⟩
  | succ fuel ih =>
    intro pos hinv
    rw [parse_records_aux]
    by_cases hg : pos + stride + 4 ≤ data.length
    · rw [if_pos hg]
      simp only [get_long, bind, Except.bind]
      rw [if_pos (by omega : pos + 4 ≤ data.length),
        if_pos (by omega : pos + 4 + 4 ≤ data.length)]
      dsimp only
      by_cases hk : (decodeLE data pos 4 &&& 0x00FFFF00) ∈ lriValues
      · rw [if_pos hk]
        obtain ⟨v, hv⟩ := readRecordValue_isOk data pos stride h12 hg
        obtain ⟨rs, hrs⟩ := ih (pos + stride) (by omega)
        rw [hv, hrs]
        exact ⟨_, rfl⟩
      · rw [if_neg hk]
        exact ih (pos + stride) (by omega)
    · rw [if_neg hg]
      exact ⟨[], rfl⟩

/-- When no aligned tag is a known measurement code, the decode loop skips
every record and yields the empty record list without error. -/
theorem parse_records_aux_unknown (data : List Nat) (stride : Nat)
    (h12 : 12 ≤ stride)
    (hunk : ∀ p < data.length, decodeLE data p 4 &&& 0x00FFFF00 ∉ lriValues) :
    ∀ fuel pos, data.length + 1 ≤ fuel + pos →
      parse_records_aux data stride fuel pos = .ok [] := by
  intro fuel
  induction fuel with
  | zero =>
    intro pos hinv
    rw [parse_records_aux, if_neg (by omega : ¬ pos + stride + 4 ≤ data.length)]
    rfl
  | succ fuel ih =>
    intro pos hinv
    rw [parse_records_aux]
    by_cases hg : pos + stride + 4 ≤ data.length
    · rw [if_pos hg]
      simp only [get_long, bind, Except.bind]
      rw [if_pos (by omega : pos + 4 ≤ data.length),
        if_pos (by omega : pos + 4 + 4 ≤ data.length)]
      dsimp only
      rw [if_neg (hunk pos (by omega))]
      exact ih (pos + stride) (by omega)
    · rw [if_neg hg]
      rfl

/-- The stride-fallback loop on an all-unknown payload: the first candidate
decode succeeds with zero records, so the state is unchanged and no records
are produced. -/
theorem try_strides_unknown (data : List Nat) (st : InverterData)
    (s : Nat) (rest : List Nat) (h12 : 12 ≤ s)
    (hunk : ∀ p < data.length, decodeLE data p 4 &&& 0x00FFFF00 ∉ lriValues) :
    try_strides data st (s :: rest) = (st, []) := by
  have hok : parse_records data 54 s = .ok [] :=
    parse_records_aux_unknown data s h12 hunk (data.length + 1) 54 (by omega)
  simp only [try_strides, hok, applyRecords, List.foldl_nil]

/-- Claim C2: the record decoder tries the ordered candidate-stride list
`[computed, 28, 16, 40, 12]` (`try_strides` keeps the first candidate whose
decode does not fail structurally); on any response of at least header size it
never raises (first conjunct); when no aligned 4-byte tag carries a known
measurement code, it produces zero records and leaves the device state
unchanged, without error (second conjunct); and a record whose tag is not in
the code table is skipped by advancing exactly one stride (third conjunct). -/
theorem c2_stride_fallback (data : List Nat) (st : InverterData)
    (h : 54 ≤ data.length) :
    (∃ out, parse_data_response data st = .ok out)
    ∧ ((∀ p < data.length, decodeLE data p 4 &&& 0x00FFFF00 ∉ lriValues) →
        parse_data_response data st = .ok (st, []))
    ∧ (∀ stride pos fuel, 12 ≤ stride → pos + stride + 4 ≤ data.length →
        decodeLE data pos 4 &&& 0x00FFFF00 ∉ lriValues →
        parse_records_aux data stride (fuel + 1) pos
          = parse_records_aux data stride fuel (pos + stride)) := by
  refine ⟨?_, ?_, ?_⟩
  · simp only [parse_data_response, get_byte_at, get_long, bind, Except.bind]
    rw [if_pos (by omega : (18 : Nat) < data.length),
      if_pos (by omega : 46 + 4 ≤ data.length),
      if_pos (by omega : 50 + 4 ≤ data.length)]
    exact ⟨_, rfl⟩
  · intro hunk
    simp only [parse_data_response, get_byte_at, get_long, bind, Except.bind]
    rw [if_pos (by omega : (18 : Nat) < data.length),
      if_pos (by omega : 46 + 4 ≤ data.length),
      if_pos (by omega : 50 + 4 ≤ data.length)]
    dsimp only
    rw [try_strides_unknown data st _ _ ?_ hunk]
    · rfl
    · split <;> split <;> first
        | exact le_max_left _ _
        | norm_num
  · intro stride pos fuel h12 hguard hunk1
    conv_lhs => rw [parse_records_aux]
    rw [if_pos hguard]
    simp only [get_long, bind, Except.bind]
    rw [if_pos (by omega : pos + 4 ≤ data.length),
      if_pos (by omega : pos + 4 + 4 ≤ data.length)]
    dsimp only
    rw [if_neg hunk1]

/-- Claim C2 witness: a 58-byte all-zero response (code 0 is not a known
measurement code) decodes to zero records with the state unchanged. -/
theorem c2_witness :
    parse_data_response (List.replicate 58 0) ({} : InverterData)
      = .ok ({}, []) :=
  (c2_stride_fallback (List.replicate 58 0) {} (by norm_num)).2.1 (by decide)

end SBFspotPort
